import Mathlib

/-!
Verification development for the deribit-latency-tester repository.

The Rust sources are shallowly embedded:
* `src/deribit_client.rs` — the reader task's frame handling (`handleText`,
  `readerLoop`), the correlation table (an association list modelling the
  mutex-guarded `HashMap<i64, oneshot::Sender<RpcResponse>>`), id allocation
  and `send_rpc`'s ordered effects, and `authenticate`'s credential check.
* `src/main.rs` — the tick-tracking task (`tickTaskStep`).
* `src/latency.rs` — `LatencyLogger::log_sample` (`logSample`), with the
  `f64`-based microsecond rounding modelled exactly as round-half-away-from-zero
  on the integer nanosecond difference (`roundDiv1000`); this is exact for all
  values below `2^53` ns, i.e. for any run shorter than ~104 days.
* `src/summary.rs` — `percentile`.
* `src/config.rs` — the empty-credential rejection in `Config::load_from_file`.

Monotonic `Instant`s are modelled as `Nat` nanosecond counts; `i64` values as
`Int` (no arithmetic in the claims approaches `2^63`). Wall-clock times are
modelled as `Int` microsecond counts, and the RFC3339 rendering of a wall time
is modelled as the timestamp itself (no claim inspects the string form).
-/

/-- Model of `serde_json::Value` restricted to the shapes the reader task and
logger inspect. `num` holds integer JSON numbers (`as_i64` succeeds on exactly
these); non-integer numbers, for which `as_i64` returns `None`, can be
represented by `other`. -/
inductive Json where
  | null : Json
  | bool (b : Bool) : Json
  | num (n : Int) : Json
  | str (s : String) : Json
  | arr (elems : List Json) : Json
  | obj (fields : List (String × Json)) : Json
  | other : Json

namespace Json

/-- `Value::get(key)` on an object: first field with the key (serde maps have
unique keys). Returns `none` on non-objects. -/
def get : Json → String → Option Json
  | obj fields, key => (fields.find? (fun kv => kv.1 = key)).map (·.2)
  | _, _ => none

/-- `Value::as_i64`. -/
def asI64 : Json → Option Int
  | num n => some n
  | _ => none

/-- `Value::as_str`. -/
def asStr : Json → Option String
  | str s => some s
  | _ => none

end Json

/-- The correlation table: model of the mutex-guarded
`HashMap<i64, oneshot::Sender<RpcResponse>>`. The oneshot sender is modelled by
an opaque handle number identifying the waiting caller. The map is an
association list whose keys are kept distinct (the `HashMap` invariant). -/
def PendingTable := List (Int × Nat)

/-- `HashMap::get`/lookup under the unique-keys invariant. -/
def lookupPending : List (Int × Nat) → Int → Option Nat
  | [], _ => none
  | (k, v) :: rest, id => if k = id then some v else lookupPending rest id

/-- `HashMap::remove` under the unique-keys invariant: drops the entry with the
given key, leaving everything else. -/
def removePending : List (Int × Nat) → Int → List (Int × Nat)
  | [], _ => []
  | (k, v) :: rest, id => if k = id then rest else (k, v) :: removePending rest id

/-- `HashMap::insert` (replace semantics). -/
def insertPending (l : List (Int × Nat)) (id : Int) (h : Nat) : List (Int × Nat) :=
  (id, h) :: removePending l id

/-- The keys of the correlation table are distinct (the `HashMap` invariant). -/
def keysNodup (l : List (Int × Nat)) : Prop := (l.map Prod.fst).Nodup

/-- Model of `RpcResponse` (deribit_client.rs lines 23-29): the reply the
reader task builds from a frame that carries a numeric id. `recvTsMono` is
nanoseconds of the monotonic clock, `recvTsWall` microseconds of wall clock,
both captured before the body is parsed. -/
structure RpcResponse where
  result : Option Json
  error : Option Json
  raw : Json
  recvTsMono : Nat
  recvTsWall : Int

/-- Model of `MarketDataEvent` (deribit_client.rs lines 17-20). -/
structure MarketDataEvent where
  recvTsMono : Nat
  channel : String
deriving DecidableEq, Repr

/-- Observable effects of one reader-task step: fulfilling a pending call's
oneshot sender, or sending a `MarketDataEvent` on `md_tx`. -/
inductive ReaderEffect where
  | fulfilled (handle : Nat) (resp : RpcResponse)
  | mdEvent (evt : MarketDataEvent)

/-- The body of `Ok(Message::Text(txt))` handling in the reader task
(deribit_client.rs lines 67-106). The input is the result of
`serde_json::from_str::<Value>(&txt)`: `none` models a parse failure, in which
case the `if let Ok(raw)` guard fails and nothing happens. Returns the new
correlation table and the effects of the step. -/
def handleText (pending : List (Int × Nat)) (recvTsMono : Nat) (recvTsWall : Int)
    (body : Option Json) : List (Int × Nat) × List ReaderEffect :=
  match body with
  | none => (pending, [])
  | some raw =>
    match (raw.get "id").bind Json.asI64 with
    | some id =>
      -- RPC response: build the reply, remove the matching pending call,
      -- fulfil its sender (`tx.send` on a dropped receiver is ignored).
      let resp : RpcResponse :=
        { result := raw.get "result", error := raw.get "error", raw := raw
          recvTsMono := recvTsMono, recvTsWall := recvTsWall }
      match lookupPending pending id with
      | some tx => (removePending pending id, [.fulfilled tx resp])
      | none => (pending, [])
    | none =>
      if (raw.get "method").bind Json.asStr = some "subscription" then
        match raw.get "params" with
        | some params =>
          match (params.get "channel").bind Json.asStr with
          | some channel =>
            (pending, [.mdEvent { recvTsMono := recvTsMono, channel := channel }])
          | none => (pending, [])
        | none => (pending, [])
      else (pending, [])

/-- One inbound WebSocket message as the reader task matches on it. For a text
frame, `body` is the outcome of JSON-parsing its payload and the two receive
timestamps are those captured at lines 68-69. -/
inductive WsMessage where
  | text (recvTsMono : Nat) (recvTsWall : Int) (body : Option Json)
  | ping
  | pong
  | binary
  | close
  | frame
  | streamError

/-- The reader task's `while let Some(msg) = ws_rx.next()` loop over a finite
message sequence (deribit_client.rs lines 63-129): text frames are handled by
`handleText`; ping/pong/binary/frame are ignored; `Close` and a stream error
`break` out of the loop, doing nothing to the correlation table. Returns the
final table and all effects in order. -/
def readerLoop : List WsMessage → List (Int × Nat) → List (Int × Nat) × List ReaderEffect
  | [], pending => (pending, [])
  | msg :: rest, pending =>
    match msg with
    | .text mono wall body =>
      let step := handleText pending mono wall body
      let next := readerLoop rest step.1
      (next.1, step.2 ++ next.2)
    | .ping => readerLoop rest pending
    | .pong => readerLoop rest pending
    | .binary => readerLoop rest pending
    | .frame => readerLoop rest pending
    | .close => (pending, [])
    | .streamError => (pending, [])

/-- Client state shared between callers: the `next_id` counter (initialised to
`1_i64` at deribit_client.rs line 60) and the correlation table. -/
structure ClientState where
  nextId : Int
  pending : List (Int × Nat)

/-- The counter value installed by `DeribitClient::connect`
(`Arc::new(Mutex::new(1_i64))`, line 60). -/
def connectInitialNextId : Int := 1

/-- The ordered observable actions of one `send_rpc` call
(deribit_client.rs lines 166-189). -/
inductive RpcAction where
  | drawId (id : Int)
  | register (id : Int) (handle : Nat)
  | writeFrame (id : Int) (method : String)
  | awaitReply (id : Int)

/-- `DeribitClient::send_rpc` up to the suspension on `rx.await`: draws the
next id under the counter mutex (lines 167-170), registers the oneshot sender
in the correlation table (lines 174-177), serialises and writes the frame
(lines 179-186), then awaits the reply (line 188). `handle` stands for the
fresh oneshot channel. Returns the state after the synchronous part, the id
drawn, and the actions in program order. An error after the draw (serialisation
or `ws_tx.send`) returns early but never rolls the counter back. -/
def send_rpc (st : ClientState) (handle : Nat) (method : String) :
    ClientState × Int × List RpcAction :=
  let id := st.nextId
  let st1 : ClientState := { st with nextId := st.nextId + 1 }
  let st2 : ClientState := { st1 with pending := insertPending st1.pending id handle }
  (st2, id, [.drawId id, .register id handle, .writeFrame id method, .awaitReply id])

/-- The ids drawn by a sequence of `send_rpc` calls, starting from counter
value `start`: each call takes the current value and increments by one. -/
def idsFrom (start : Int) : Nat → List Int
  | 0 => []
  | n + 1 => start :: idsFrom (start + 1) n

/-- Run `n` successive `send_rpc` calls (handles and method irrelevant to the
counter) and collect the assigned ids. -/
def runSendRpcIds (st : ClientState) : Nat → List Int
  | 0 => []
  | n + 1 =>
    let step := send_rpc st 0 "m"
    step.2.1 :: runSendRpcIds step.1 n

/-- `DeribitClient::authenticate` (deribit_client.rs lines 146-164), modelled
up to the reply: returns the outcome together with the list of RPC methods it
issued over the transport. The reply to the single `public/auth` call is a
parameter. `connect` (lines 137-143) propagates an error from this function. -/
def authenticate (clientId clientSecret : String) (authResp : RpcResponse) :
    Except String Unit × List String :=
  if clientId.isEmpty || clientSecret.isEmpty then
    (.error "CLIENT_ID / CLIENT_SECRET are empty, cannot authenticate", [])
  else
    match authResp.error with
    | some _ => (.error "auth error", ["public/auth"])
    | none => (.ok (), ["public/auth"])

/-- The credential check in `Config::load_from_file` (config.rs lines 72-74):
empty credentials are rejected before any connection is attempted. -/
def configCredentialsCheck (clientId clientSecret : String) : Except String Unit :=
  if clientId.isEmpty || clientSecret.isEmpty then
    .error "Deribit credentials must not be empty"
  else
    .ok ()

/-- One step of the tick-tracking task in `main.rs` (lines 54-67): drops events
whose channel does not start with `"book."` (Rust's `str::starts_with`,
modelled as a character-sequence prefix test), otherwise overwrites the
single-slot cache with the event's monotonic receive time as nanoseconds since
program start (`duration_since` saturates at zero, hence truncated `Nat`
subtraction). -/
def tickTaskStep (programStart : Nat) (lastTickNs : Option Int) (evt : MarketDataEvent) :
    Option Int :=
  if !("book.".data.isPrefixOf evt.channel.data) then
    lastTickNs
  else
    some ((evt.recvTsMono - programStart : Nat) : Int)

/-- `f64::round` applied to `x / 1000.0`: round half away from zero of the
exact quotient. Exact for `|x| < 2^53`, where the `i64` to `f64` conversion in
the source is lossless. -/
def roundDiv1000 (x : Int) : Int :=
  if 0 ≤ x then ((x.toNat + 500) / 1000 : Nat)
  else -(((-x).toNat + 500) / 1000 : Nat)

/-- `RoundtripSample` (latency.rs lines 14-42). Wall-clock ISO strings are
modelled by the underlying wall timestamps. -/
structure RoundtripSample where
  opType : String
  rpcMethod : String
  instrumentName : String
  orderId : Option String
  tickTsMonoNs : Option Int
  sendTsMonoNs : Int
  recvTsMonoNs : Int
  sendTsWallIso : Int
  recvTsWallIso : Int
  rttMonoUs : Int
  rttWallUs : Int
  tickToSendUs : Option Int
  tickToAckUs : Option Int
  engineUsIn : Option Int
  engineUsOut : Option Int
  engineUsDiff : Option Int
  errorCode : Option Int
  errorMsg : Option String
  ackDeltaPrevUs : Option Int

/-- The logger-local mutable state (latency.rs lines 45-49): the previous
sample's receive timestamp in nanoseconds since program start. -/
structure LoggerState where
  lastAckRecvNs : Option Int

/-- `SampleContext` (latency.rs lines 52-61). -/
structure SampleContext where
  opType : String
  rpcMethod : String
  instrumentName : String
  orderId : Option String
  tickTsMonoNs : Option Int
  sendTsMono : Nat
  sendTsWall : Int
  resp : RpcResponse

/-- `LatencyLogger::instant_to_ns_since_start` (latency.rs lines 80-83):
`Instant::duration_since` saturates at zero when the instant precedes the
start, hence truncated `Nat` subtraction. -/
def instantToNsSinceStart (programStart t : Nat) : Int :=
  ((t - programStart : Nat) : Int)

/-- `LatencyLogger::duration_us` (latency.rs lines 89-92): saturating duration,
truncated to whole microseconds by `as_micros`. -/
def duration_us (a b : Nat) : Int :=
  (((b - a : Nat) / 1000 : Nat) : Int)

/-- `LatencyLogger::duration_wall_us` (latency.rs lines 94-97), with wall
clocks modelled in microseconds. -/
def duration_wall_us (a b : Int) : Int := b - a

/-- `LatencyLogger::extract_engine_timestamps` (latency.rs lines 99-114). -/
def extract_engine_timestamps (resp : RpcResponse) : Option Int × Option Int × Option Int :=
  ((resp.raw.get "usIn").bind Json.asI64,
   (resp.raw.get "usOut").bind Json.asI64,
   (resp.raw.get "usDiff").bind Json.asI64)

/-- `LatencyLogger::extract_error` (latency.rs lines 116-130). -/
def extract_error (resp : RpcResponse) : Option Int × Option String :=
  match resp.error with
  | some err => ((err.get "code").bind Json.asI64, (err.get "message").bind Json.asStr)
  | none => (none, none)

/-- `LatencyLogger::log_sample` (latency.rs lines 133-200): builds the sample
row exactly as the source does and updates `last_ack_recv_ns`. The CSV write
and flush are the only effects not modelled. -/
def log_sample (st : LoggerState) (programStart : Nat) (ctx : SampleContext) :
    RoundtripSample × LoggerState :=
  let recvTsMono := ctx.resp.recvTsMono
  let recvTsWall := ctx.resp.recvTsWall
  let sendMonoNs := instantToNsSinceStart programStart ctx.sendTsMono
  let recvMonoNs := instantToNsSinceStart programStart recvTsMono
  let rttMonoUs := duration_us ctx.sendTsMono recvTsMono
  let rttWallUs := duration_wall_us ctx.sendTsWall recvTsWall
  let tickToSendUs := ctx.tickTsMonoNs.map (fun tickNs => roundDiv1000 (sendMonoNs - tickNs))
  let tickToAckUs := ctx.tickTsMonoNs.map (fun tickNs => roundDiv1000 (recvMonoNs - tickNs))
  let engine := extract_engine_timestamps ctx.resp
  let err := extract_error ctx.resp
  let ackDeltaPrevUs :=
    match st.lastAckRecvNs with
    | some lastNs => some (roundDiv1000 (recvMonoNs - lastNs))
    | none => none
  let sample : RoundtripSample :=
    { opType := ctx.opType
      rpcMethod := ctx.rpcMethod
      instrumentName := ctx.instrumentName
      orderId := ctx.orderId
      tickTsMonoNs := ctx.tickTsMonoNs
      sendTsMonoNs := sendMonoNs
      recvTsMonoNs := recvMonoNs
      sendTsWallIso := ctx.sendTsWall
      recvTsWallIso := recvTsWall
      rttMonoUs := rttMonoUs
      rttWallUs := rttWallUs
      tickToSendUs := tickToSendUs
      tickToAckUs := tickToAckUs
      engineUsIn := engine.1
      engineUsOut := engine.2.1
      engineUsDiff := engine.2.2
      errorCode := err.1
      errorMsg := err.2
      ackDeltaPrevUs := ackDeltaPrevUs }
  (sample, { lastAckRecvNs := some recvMonoNs })

/-- Successive `log_sample` calls on one logger, collecting the rows. -/
def log_samples (st : LoggerState) (programStart : Nat) :
    List SampleContext → List RoundtripSample
  | [] => []
  | ctx :: rest =>
    let step := log_sample st programStart ctx
    step.1 :: log_samples step.2 programStart rest

/-- `percentile` (summary.rs lines 78-89). The `f64` rank computation
`(p / 100.0) * ((n - 1) as f64)` is modelled exactly over `ℚ` (the inputs 50,
90, 99 and any realistic length are far below any `f64` rounding); `floor` then
`as usize` saturates negatives at zero, hence `Int.toNat`. Out-of-bounds
indexing (impossible for `0 ≤ p ≤ 100`) is modelled by `getD _ 0`. -/
def percentile (sorted : List Int) (p : ℚ) : Int :=
  if sorted.isEmpty then 0
  else if sorted.length = 1 then sorted.getD 0 0
  else
    let n := sorted.length
    let rank : ℚ := (p / 100) * ((n - 1 : ℕ) : ℚ)
    let idx : Nat := (⌊rank⌋).toNat
    sorted.getD idx 0

/-- `connect`'s post-websocket authentication phase (deribit_client.rs lines
137-143): an `authenticate` error is wrapped and propagated, failing
`connect`. -/
def connectAuthPhase (clientId clientSecret : String) (authResp : RpcResponse) :
    Except String Unit :=
  match (authenticate clientId clientSecret authResp).1 with
  | .error e => .error ("authentication failed: " ++ e)
  | .ok u => .ok u

/-- The inbound frame of the C7 scenario: no `id` member, `method:
"subscription"`, `params.channel = "book.BTC-PERPETUAL.raw"`. -/
def subscriptionFrame : Json :=
  Json.obj
    [("method", Json.str "subscription"),
     ("params", Json.obj [("channel", Json.str "book.BTC-PERPETUAL.raw")])]

/-- Placeholder row used as the `getD` default when indexing sample lists. -/
def defaultRoundtripSample : RoundtripSample :=
  { opType := "", rpcMethod := "", instrumentName := "", orderId := none
    tickTsMonoNs := none, sendTsMonoNs := 0, recvTsMonoNs := 0
    sendTsWallIso := 0, recvTsWallIso := 0, rttMonoUs := 0, rttWallUs := 0
    tickToSendUs := none, tickToAckUs := none
    engineUsIn := none, engineUsOut := none, engineUsDiff := none
    errorCode := none, errorMsg := none, ackDeltaPrevUs := none }

/-- The ten-element series of the percentile scenario. -/
def tenSeries : List Int := [1, 2, 3, 4, 5, 6, 7, 8, 9, 10]

/-- A concrete reply used by witnesses: a successful frame carrying id 1. -/
def replyFrame : Json := Json.obj [("id", Json.num 1), ("result", Json.str "ok")]

/-- A concrete reply frame with an id matching no pending call. -/
def staleFrame : Json := Json.obj [("id", Json.num 9)]

/-- A concrete response for witnesses of the logger claims. -/
def testResponse (recvMono : Nat) : RpcResponse :=
  { result := some (Json.str "ok"), error := none, raw := Json.null
    recvTsMono := recvMono, recvTsWall := 50 }

/-- A concrete sample context for witnesses of the logger claims. -/
def testContext (opType : String) (sendMono recvMono : Nat) : SampleContext :=
  { opType := opType, rpcMethod := "private/buy", instrumentName := "BTC-PERPETUAL"
    orderId := some "ord-1", tickTsMonoNs := some 100
    sendTsMono := sendMono, sendTsWall := 10, resp := testResponse recvMono }

/-- State right after `connect`: counter at 1, empty correlation table. -/
def freshClientState : ClientState := { nextId := connectInitialNextId, pending := [] }

/-- A concrete correlation table with two concurrently pending calls. -/
def twoPendingTable : List (Int × Nat) := [(1, 10), (2, 20)]

theorem lookupPending_eq_none_of_not_mem_keys (l : List (Int × Nat)) (X : Int)
    (h : X ∉ l.map Prod.fst) : lookupPending l X = none := by
  induction l with
  | nil => rfl
  | cons kv rest ih =>
    obtain ⟨k, v⟩ := kv
    simp only [List.map_cons, List.mem_cons, not_or] at h
    simp only [lookupPending, if_neg (Ne.symm h.1)]
    exact ih h.2

theorem lookupPending_of_mem : ∀ (l : List (Int × Nat)) (X : Int) (h : Nat),
    keysNodup l → (X, h) ∈ l → lookupPending l X = some h := by
  intro l
  induction l with
  | nil => intro X h _ hmem; cases hmem
  | cons kv rest ih =>
    intro X h hnodup hmem
    obtain ⟨k, v⟩ := kv
    simp only [keysNodup, List.map_cons, List.nodup_cons] at hnodup
    rcases List.mem_cons.mp hmem with heq | hmem2
    · cases heq
      simp [lookupPending]
    · by_cases hk : k = X
      · subst hk
        exact absurd (List.mem_map.mpr ⟨(k, h), hmem2, rfl⟩) hnodup.1
      · simp only [lookupPending, if_neg hk]
        exact ih X h hnodup.2 hmem2

theorem mem_removePending (l : List (Int × Nat)) (X Y : Int) (k : Nat)
    (hmem : (Y, k) ∈ l) (hne : Y ≠ X) : (Y, k) ∈ removePending l X := by
  induction l with
  | nil => cases hmem
  | cons kv rest ih =>
    obtain ⟨a, b⟩ := kv
    rcases List.mem_cons.mp hmem with heq | hmem2
    · cases heq
      simp [removePending, hne]
    · by_cases ha : a = X
      · simpa [removePending, ha] using hmem2
      · simp only [removePending, if_neg ha]
        exact List.mem_cons.mpr (Or.inr (ih hmem2))

theorem lookupPending_removePending : ∀ (l : List (Int × Nat)) (X : Int),
    keysNodup l → lookupPending (removePending l X) X = none := by
  intro l
  induction l with
  | nil => intro X _; rfl
  | cons kv rest ih =>
    intro X hnodup
    obtain ⟨k, v⟩ := kv
    simp only [keysNodup, List.map_cons, List.nodup_cons] at hnodup
    by_cases hk : k = X
    · subst hk
      simp only [removePending, if_pos rfl]
      exact lookupPending_eq_none_of_not_mem_keys rest k hnodup.1
    · simp only [removePending, if_neg hk, lookupPending, if_neg hk]
      exact ih X hnodup.2

theorem roundDiv1000_mono {x y : Int} (h : x ≤ y) : roundDiv1000 x ≤ roundDiv1000 y := by
  unfold roundDiv1000
  by_cases hx : 0 ≤ x <;> by_cases hy : 0 ≤ y
  · simp only [if_pos hx, if_pos hy]
    have hle : x.toNat ≤ y.toNat := Int.toNat_le_toNat h
    exact_mod_cast Nat.div_le_div_right (Nat.add_le_add_right hle 500)
  · exact absurd (le_trans hx h) hy
  · simp only [if_neg hx, if_pos hy]
    exact le_trans (neg_nonpos.mpr (by positivity)) (by positivity)
  · simp only [if_neg hx, if_neg hy]
    have h2 : (-y).toNat ≤ (-x).toNat := Int.toNat_le_toNat (neg_le_neg h)
    exact neg_le_neg (by exact_mod_cast Nat.div_le_div_right (Nat.add_le_add_right h2 500))

theorem roundDiv1000_err (x : Int) : |1000 * roundDiv1000 x - x| ≤ 500 := by
  unfold roundDiv1000
  by_cases hx : 0 ≤ x
  · rw [if_pos hx]
    have hxe : (x.toNat : Int) = x := Int.toNat_of_nonneg hx
    obtain ⟨n, hn⟩ : ∃ n : ℕ, x.toNat = n := ⟨_, rfl⟩
    rw [hn] at hxe ⊢
    have hdm := Nat.div_add_mod (n + 500) 1000
    have hlt : (n + 500) % 1000 < 1000 := Nat.mod_lt _ (by norm_num)
    rw [abs_le]
    constructor <;> omega
  · rw [if_neg hx]
    have h0 : 0 ≤ -x := by omega
    have hxe : ((-x).toNat : Int) = -x := Int.toNat_of_nonneg h0
    obtain ⟨n, hn⟩ : ∃ n : ℕ, (-x).toNat = n := ⟨_, rfl⟩
    rw [hn] at hxe ⊢
    have hdm := Nat.div_add_mod (n + 500) 1000
    have hlt : (n + 500) % 1000 < 1000 := Nat.mod_lt _ (by norm_num)
    rw [abs_le]
    constructor <;> omega

theorem runSendRpcIds_eq_idsFrom : ∀ (n : Nat) (st : ClientState),
    runSendRpcIds st n = idsFrom st.nextId n := by
  intro n
  induction n with
  | zero => intro st; rfl
  | succ k ih =>
    intro st
    simp only [runSendRpcIds, send_rpc, idsFrom]
    rw [ih]

theorem le_of_mem_idsFrom : ∀ (n : Nat) (s y : Int), y ∈ idsFrom s n → s ≤ y := by
  intro n
  induction n with
  | zero => intro s y h; cases h
  | succ k ih =>
    intro s y h
    rcases List.mem_cons.mp h with rfl | h2
    · exact le_refl _
    · exact le_trans (by omega) (ih (s + 1) y h2)

theorem idsFrom_pairwise_lt : ∀ (n : Nat) (s : Int), (idsFrom s n).Pairwise (· < ·) := by
  intro n
  induction n with
  | zero => intro s; exact List.Pairwise.nil
  | succ k ih =>
    intro s
    refine List.Pairwise.cons ?_ (ih (s + 1))
    intro y hy
    have := le_of_mem_idsFrom k (s + 1) y hy
    omega

theorem idsFrom_getD : ∀ (n i : Nat) (s : Int), i < n →
    (idsFrom s n).getD i 0 = s + i := by
  intro n
  induction n with
  | zero => intro i s h; omega
  | succ k ih =>
    intro i s h
    match i with
    | 0 => simp [idsFrom]
    | j + 1 =>
      have hj : j < k := by omega
      simp only [idsFrom, List.getD_cons_succ]
      rw [ih j (s + 1) hj]
      push_cast
      ring

theorem log_sample_state_records_recv (st : LoggerState) (start : Nat) (ctx : SampleContext) :
    (log_sample st start ctx).2.lastAckRecvNs
      = some ((log_sample st start ctx).1.recvTsMonoNs) := rfl

theorem log_sample_first_none (start : Nat) (ctx : SampleContext) :
    (log_sample { lastAckRecvNs := none } start ctx).1.ackDeltaPrevUs = none := rfl

theorem log_samples_consecutive : ∀ (ctxs : List SampleContext) (st : LoggerState)
    (start i : Nat) (s1 s2 : RoundtripSample),
    (log_samples st start ctxs).get? i = some s1 →
    (log_samples st start ctxs).get? (i + 1) = some s2 →
    s2.ackDeltaPrevUs = some (roundDiv1000 (s2.recvTsMonoNs - s1.recvTsMonoNs)) := by
  intro ctxs
  induction ctxs with
  | nil =>
    intro st start i s1 s2 h1 _
    simp [log_samples] at h1
  | cons c cs ih =>
    intro st start i s1 s2 h1 h2
    match i with
    | 0 =>
      cases cs with
      | nil => simp [log_samples] at h2
      | cons c2 cs2 =>
        simp only [log_samples, List.get?_cons_zero, List.get?_cons_succ,
          Option.some.injEq] at h1 h2
        subst h1
        subst h2
        rfl
    | j + 1 =>
      simp only [log_samples, List.get?_cons_succ] at h1 h2
      exact ih _ start j s1 s2 h1 h2

theorem get?_getD {α : Type} (l : List α) (d : α) (i : Nat) (h : i < l.length) :
    l.get? i = some (l.getD i d) := by
  rw [List.get?_eq_get h, List.getD_eq_get l d h]

/-- C1: for an inbound frame carrying numeric correlation id X, the reader
loop builds the Reply (result/error/raw plus the receive timestamps), removes
the PendingCall registered under X from the correlation table, and fulfills
exactly that call's handle; every other concurrently pending call stays in the
table, and a later frame with the same id fulfills nothing, so each handle is
fulfilled at most once. -/
theorem reply_delivered_to_registering_caller
    (pending : List (Int × Nat)) (X : Int) (h : Nat) (raw : Json)
    (mono mono2 : Nat) (wall wall2 : Int)
    (hnodup : keysNodup pending) (hmem : (X, h) ∈ pending)
    (hid : (raw.get "id").bind Json.asI64 = some X) :
    handleText pending mono wall (some raw) =
      (removePending pending X,
        [ReaderEffect.fulfilled h
          { result := raw.get "result", error := raw.get "error", raw := raw
            recvTsMono := mono, recvTsWall := wall }])
    ∧ (∀ Y k, (Y, k) ∈ pending → Y ≠ X → (Y, k) ∈ removePending pending X)
    ∧ handleText (removePending pending X) mono2 wall2 (some raw)
        = (removePending pending X, []) := by
  refine ⟨?_, ?_, ?_⟩
  · simp only [handleText, hid, lookupPending_of_mem pending X h hnodup hmem]
  · intro Y k hm hne
    exact mem_removePending pending X Y k hm hne
  · simp only [handleText, hid, lookupPending_removePending pending X hnodup]

/-- Witness for C1 on a table with two pending calls (ids 1 and 2) and a reply
frame carrying id 1: the handle registered under 1 is the one fulfilled, call
2 stays pending, and a duplicate of the frame fulfills nothing. -/
theorem reply_delivered_to_registering_caller_witness :
    handleText twoPendingTable 5 6 (some replyFrame) =
      (removePending twoPendingTable 1,
        [ReaderEffect.fulfilled 10
          { result := replyFrame.get "result", error := replyFrame.get "error"
            raw := replyFrame, recvTsMono := 5, recvTsWall := 6 }])
    ∧ (2, 20) ∈ removePending twoPendingTable 1
    ∧ handleText (removePending twoPendingTable 1) 7 8 (some replyFrame)
        = (removePending twoPendingTable 1, []) := by
  have main := reply_delivered_to_registering_caller twoPendingTable 1 10 replyFrame
    5 7 6 8 (by unfold keysNodup; decide) (by decide) rfl
  exact ⟨main.1, main.2.1 2 20 (by decide) (by decide), main.2.2⟩

/-- C2: starting from the counter value installed by `connect`, a sequence of
`send_rpc` calls is assigned the ids 1, 2, 3, ... : each id is strictly
greater than all previously assigned ones, none is ever reused, and the i-th
call (0-indexed) receives id 1 + i. -/
theorem send_rpc_ids_strictly_monotone (n : Nat) (st : ClientState)
    (hinit : st.nextId = connectInitialNextId) :
    runSendRpcIds st n = idsFrom 1 n
    ∧ (runSendRpcIds st n).Pairwise (· < ·)
    ∧ (runSendRpcIds st n).Nodup
    ∧ ∀ i, i < n → (runSendRpcIds st n).getD i 0 = 1 + (i : Int) := by
  have heq : runSendRpcIds st n = idsFrom 1 n := by
    rw [runSendRpcIds_eq_idsFrom n st, hinit]
    rfl
  refine ⟨heq, ?_, ?_, ?_⟩
  · rw [heq]
    exact idsFrom_pairwise_lt n 1
  · rw [heq]
    exact (idsFrom_pairwise_lt n 1).imp (fun hlt => ne_of_lt hlt)
  · intro i hi
    rw [heq]
    exact idsFrom_getD n i 1 hi

/-- Witness for C2: three calls from a fresh client draw ids [1, 2, 3]. -/
theorem send_rpc_ids_strictly_monotone_witness :
    runSendRpcIds freshClientState 3 = idsFrom 1 3
    ∧ (runSendRpcIds freshClientState 3).Pairwise (· < ·)
    ∧ (runSendRpcIds freshClientState 3).Nodup
    ∧ (runSendRpcIds freshClientState 3).getD 2 0 = 1 + ((2 : Nat) : Int) := by
  have main := send_rpc_ids_strictly_monotone 3 freshClientState rfl
  exact ⟨main.1, main.2.1, main.2.2.1, main.2.2.2 2 (by decide)⟩

/-- C3 (evaluating the code at the failing input): when the reader loop
terminates — on a clean remote close or on a stream error — with a call still
pending (id 1, handle 7), it simply breaks out: the pending entry is left in
the correlation table and no connection-closed failure effect is produced, so
the suspended caller is never woken. The spec requires every still-outstanding
call to fail with a connection-closed error instead. -/
theorem reader_termination_leaves_pending_call_hanging :
    readerLoop [WsMessage.close] [(1, 7)] = ([(1, 7)], [])
    ∧ readerLoop [WsMessage.streamError] [(1, 7)] = ([(1, 7)], []) :=
  ⟨rfl, rfl⟩

/-- C4: in every `send_rpc` call, the completion handle is registered in the
correlation table under the freshly drawn id strictly before the request frame
is written to the transport, and at the moment of the write a waiter for that
id is present in the table. -/
theorem send_rpc_registers_before_writing (st : ClientState) (h : Nat) (m : String) :
    (∃ i j, i < j
      ∧ ((send_rpc st h m).2.2).get? i
          = some (RpcAction.register ((send_rpc st h m).2.1) h)
      ∧ ((send_rpc st h m).2.2).get? j
          = some (RpcAction.writeFrame ((send_rpc st h m).2.1) m))
    ∧ lookupPending (send_rpc st h m).1.pending ((send_rpc st h m).2.1) = some h := by
  refine ⟨⟨1, 2, by omega, rfl, rfl⟩, ?_⟩
  simp [send_rpc, insertPending, lookupPending]

/-- C5: for every logged sample, `rtt_mono_us` is non-negative;
`tick_to_send_us` and `tick_to_ack_us` are present exactly when a tick
timestamp snapshot existed at send time; and whenever both are present and the
receive instant is not earlier than the send instant, `tick_to_ack_us` is at
least `tick_to_send_us`. -/
theorem log_sample_latency_metrics (st : LoggerState) (start : Nat) (ctx : SampleContext) :
    0 ≤ (log_sample st start ctx).1.rttMonoUs
    ∧ ((log_sample st start ctx).1.tickToSendUs.isSome ↔ ctx.tickTsMonoNs.isSome)
    ∧ ((log_sample st start ctx).1.tickToAckUs.isSome ↔ ctx.tickTsMonoNs.isSome)
    ∧ (ctx.sendTsMono ≤ ctx.resp.recvTsMono →
        ∀ a b, (log_sample st start ctx).1.tickToSendUs = some a →
          (log_sample st start ctx).1.tickToAckUs = some b → a ≤ b) := by
  refine ⟨?_, ?_, ?_, ?_⟩
  · exact Int.natCast_nonneg _
  · cases htick : ctx.tickTsMonoNs <;> simp [log_sample, htick]
  · cases htick : ctx.tickTsMonoNs <;> simp [log_sample, htick]
  · intro hm a b ha hb
    have ha2 : ctx.tickTsMonoNs.map
        (fun tickNs => roundDiv1000 (instantToNsSinceStart start ctx.sendTsMono - tickNs))
          = some a := ha
    have hb2 : ctx.tickTsMonoNs.map
        (fun tickNs => roundDiv1000 (instantToNsSinceStart start ctx.resp.recvTsMono - tickNs))
          = some b := hb
    cases htick : ctx.tickTsMonoNs with
    | none =>
      rw [htick] at ha2
      cases ha2
    | some t =>
      rw [htick] at ha2 hb2
      have ha3 := Option.some.inj ha2
      have hb3 := Option.some.inj hb2
      rw [← ha3, ← hb3]
      apply roundDiv1000_mono
      have hns : instantToNsSinceStart start ctx.sendTsMono
          ≤ instantToNsSinceStart start ctx.resp.recvTsMono := by
        simp only [instantToNsSinceStart]
        exact_mod_cast Nat.sub_le_sub_right hm start
      exact sub_le_sub_right hns t

/-- Witness for C5 on a concrete context (tick at 100 ns, send at instant
2000, receive at instant 5000, program start 1000): the tick-relative metrics
are present and `tick_to_send_us = 1 ≤ 4 = tick_to_ack_us`. -/
theorem log_sample_latency_metrics_witness :
    0 ≤ (log_sample { lastAckRecvNs := none } 1000 (testContext "buy" 2000 5000)).1.rttMonoUs
    ∧ ((log_sample { lastAckRecvNs := none } 1000 (testContext "buy" 2000 5000)).1.tickToSendUs.isSome
        ↔ (testContext "buy" 2000 5000).tickTsMonoNs.isSome)
    ∧ ((log_sample { lastAckRecvNs := none } 1000 (testContext "buy" 2000 5000)).1.tickToAckUs.isSome
        ↔ (testContext "buy" 2000 5000).tickTsMonoNs.isSome)
    ∧ (1 : Int) ≤ 4 := by
  have main := log_sample_latency_metrics { lastAckRecvNs := none } 1000
    (testContext "buy" 2000 5000)
  exact ⟨main.1, main.2.1, main.2.2.1, main.2.2.2 (by decide) 1 4 rfl rfl⟩

/-- C6: for a non-empty sorted series and percentile `p` between 0 and 100,
`percentile` reports the element at the 0-indexed rank
`floor(p / 100 * (n - 1))`, which is a valid index of the series. -/
theorem percentile_nearest_rank (l : List Int) (p : ℚ) (hne : l ≠ [])
    (h0 : 0 ≤ p) (h1 : p ≤ 100) :
    percentile l p = l.getD ((⌊p / 100 * ((l.length - 1 : ℕ) : ℚ)⌋).toNat) 0
    ∧ (⌊p / 100 * ((l.length - 1 : ℕ) : ℚ)⌋).toNat < l.length := by
  have hlen : 0 < l.length := List.length_pos.mpr hne
  have hp1 : p / 100 ≤ 1 := by linarith
  have hle : p / 100 * ((l.length - 1 : ℕ) : ℚ) ≤ ((l.length - 1 : ℕ) : ℚ) :=
    mul_le_of_le_one_left (by positivity) hp1
  have hfl : ⌊p / 100 * ((l.length - 1 : ℕ) : ℚ)⌋ ≤ ((l.length - 1 : ℕ) : ℤ) := by
    have h3 := Int.floor_mono hle
    rwa [Int.floor_natCast] at h3
  have hidx : (⌊p / 100 * ((l.length - 1 : ℕ) : ℚ)⌋).toNat < l.length := by
    have h2 := Int.toNat_le_toNat hfl
    simp only [Int.toNat_natCast] at h2
    omega
  have hempty : ¬(l.isEmpty = true) := by
    cases l with
    | nil => exact absurd rfl hne
    | cons a as => simp
  refine ⟨?_, hidx⟩
  unfold percentile
  rw [if_neg hempty]
  by_cases hl1 : l.length = 1
  · rw [if_pos hl1]
    have hz : ((l.length - 1 : ℕ) : ℚ) = 0 := by
      rw [hl1]
      norm_num
    rw [hz, mul_zero, Int.floor_zero, Int.toNat_zero]
  · rw [if_neg hl1]

/-- Witness for C6: on the series [1, ..., 10], p50 reports 5 and p90
reports 9. -/
theorem percentile_nearest_rank_witness :
    percentile tenSeries 50 = 5 ∧ percentile tenSeries 90 = 9 := by
  have hlen : tenSeries.length = 10 := rfl
  constructor
  · have main := percentile_nearest_rank tenSeries 50 (by decide) (by norm_num) (by norm_num)
    have hidx : (⌊(50 : ℚ) / 100 * ((10 - 1 : ℕ) : ℚ)⌋).toNat = 4 := by
      norm_num
      rfl
    rw [main.1, hlen, hidx]
    rfl
  · have main := percentile_nearest_rank tenSeries 90 (by decide) (by norm_num) (by norm_num)
    have hidx : (⌊(90 : ℚ) / 100 * ((10 - 1 : ℕ) : ℚ)⌋).toNat = 8 := by
      norm_num
      rfl
    rw [main.1, hlen, hidx]
    rfl

/-- C7: a frame with no numeric id, method "subscription" and channel
"book.BTC-PERPETUAL.raw" produces a single market-data event and no fulfilled
call (hence zero RoundtripSamples) while leaving the correlation table
untouched; the tick-tracking task then overwrites the single-slot cache with
the frame's monotonic receive timestamp. An event whose channel does not match
the subscribed market-data pattern (prefix "book.") never updates the cache. -/
theorem subscription_updates_tick_cache_only (pending : List (Int × Nat))
    (mono start : Nat) (wall : Int) (cache : Option Int) :
    handleText pending mono wall (some subscriptionFrame)
      = (pending,
         [ReaderEffect.mdEvent { recvTsMono := mono, channel := "book.BTC-PERPETUAL.raw" }])
    ∧ tickTaskStep start cache { recvTsMono := mono, channel := "book.BTC-PERPETUAL.raw" }
        = some ((mono - start : Nat) : Int)
    ∧ ∀ evt : MarketDataEvent, "book.".data.isPrefixOf evt.channel.data = false →
        tickTaskStep start cache evt = cache := by
  refine ⟨rfl, rfl, ?_⟩
  intro evt hevt
  simp [tickTaskStep, hevt]

/-- Witness for C7: the subscription frame updates an empty cache to the
receive timestamp, while a "ticker." channel event leaves it unchanged. -/
theorem subscription_updates_tick_cache_only_witness :
    handleText [] 3 0 (some subscriptionFrame)
      = ([], [ReaderEffect.mdEvent { recvTsMono := 3, channel := "book.BTC-PERPETUAL.raw" }])
    ∧ tickTaskStep 1 none { recvTsMono := 3, channel := "book.BTC-PERPETUAL.raw" }
        = some ((3 - 1 : Nat) : Int)
    ∧ tickTaskStep 1 none { recvTsMono := 3, channel := "ticker.BTC-PERPETUAL.raw" } = none := by
  have main := subscription_updates_tick_cache_only [] 3 1 0 none
  exact ⟨main.1, main.2.1,
    main.2.2 { recvTsMono := 3, channel := "ticker.BTC-PERPETUAL.raw" } (by decide)⟩

/-- C8: a frame whose body fails to parse as JSON, and a reply whose
correlation id matches no pending call, are both dropped silently by the
reader loop: no effect is produced, the correlation table is unchanged, and
the loop continues with the remaining messages as if the frame had not
occurred. -/
theorem malformed_and_stale_frames_dropped (pending : List (Int × Nat))
    (mono mono2 : Nat) (wall wall2 : Int) (rest : List WsMessage) (raw : Json) (X : Int)
    (hid : (raw.get "id").bind Json.asI64 = some X)
    (hstale : lookupPending pending X = none) :
    handleText pending mono wall none = (pending, [])
    ∧ readerLoop (WsMessage.text mono wall none :: rest) pending = readerLoop rest pending
    ∧ handleText pending mono2 wall2 (some raw) = (pending, [])
    ∧ readerLoop (WsMessage.text mono2 wall2 (some raw) :: rest) pending
        = readerLoop rest pending := by
  have h3 : handleText pending mono2 wall2 (some raw) = (pending, []) := by
    simp only [handleText, hid, hstale]
  refine ⟨rfl, rfl, h3, ?_⟩
  simp only [readerLoop]
  rw [h3]
  simp

/-- Witness for C8: with call 2 pending, a malformed frame and a reply
carrying the stale id 9 are both dropped and the loop goes on. -/
theorem malformed_and_stale_frames_dropped_witness :
    handleText [(2, 20)] 1 2 none = ([(2, 20)], [])
    ∧ readerLoop [WsMessage.text 1 2 none] [(2, 20)] = readerLoop [] [(2, 20)]
    ∧ handleText [(2, 20)] 3 4 (some staleFrame) = ([(2, 20)], [])
    ∧ readerLoop [WsMessage.text 3 4 (some staleFrame)] [(2, 20)] = readerLoop [] [(2, 20)] :=
  malformed_and_stale_frames_dropped [(2, 20)] 1 3 2 4 [] staleFrame 9 rfl rfl

/-- C9: over any sequence of `log_sample` calls on one logger, the first row
has no `ack_delta_prev_us`; every later row's `ack_delta_prev_us` is the
round-to-nearest microsecond value of this row's monotonic receive timestamp
minus the previous row's, and that value is within half a microsecond (hence
within 1 unit) of the exact nanosecond difference. -/
theorem ack_delta_links_consecutive_samples (start : Nat) (ctxs : List SampleContext) :
    (ctxs ≠ [] →
      ((log_samples { lastAckRecvNs := none } start ctxs).getD 0
          defaultRoundtripSample).ackDeltaPrevUs = none)
    ∧ ∀ i, i + 1 < (log_samples { lastAckRecvNs := none } start ctxs).length →
        ((log_samples { lastAckRecvNs := none } start ctxs).getD (i + 1)
            defaultRoundtripSample).ackDeltaPrevUs
          = some (roundDiv1000
              (((log_samples { lastAckRecvNs := none } start ctxs).getD (i + 1)
                  defaultRoundtripSample).recvTsMonoNs
                - ((log_samples { lastAckRecvNs := none } start ctxs).getD i
                    defaultRoundtripSample).recvTsMonoNs))
        ∧ |1000 * roundDiv1000
              (((log_samples { lastAckRecvNs := none } start ctxs).getD (i + 1)
                  defaultRoundtripSample).recvTsMonoNs
                - ((log_samples { lastAckRecvNs := none } start ctxs).getD i
                    defaultRoundtripSample).recvTsMonoNs)
            - (((log_samples { lastAckRecvNs := none } start ctxs).getD (i + 1)
                  defaultRoundtripSample).recvTsMonoNs
                - ((log_samples { lastAckRecvNs := none } start ctxs).getD i
                    defaultRoundtripSample).recvTsMonoNs)| ≤ 500 := by
  constructor
  · intro hne
    cases ctxs with
    | nil => exact absurd rfl hne
    | cons c cs =>
      simp only [log_samples, List.getD_cons_zero]
      exact log_sample_first_none start c
  · intro i hlen
    have hi : i < (log_samples { lastAckRecvNs := none } start ctxs).length := by omega
    have h1 := get?_getD (log_samples { lastAckRecvNs := none } start ctxs)
      defaultRoundtripSample i hi
    have h2 := get?_getD (log_samples { lastAckRecvNs := none } start ctxs)
      defaultRoundtripSample (i + 1) hlen
    exact ⟨log_samples_consecutive ctxs { lastAckRecvNs := none } start i _ _ h1 h2,
      roundDiv1000_err _⟩

/-- Witness for C9: a "buy" sample received at instant 5000 followed by a
"cancel" sample received at instant 9000 (program start 1000): the first row
has no delta and the second row's delta is the rounded microsecond distance
between the two receive timestamps. -/
theorem ack_delta_links_consecutive_samples_witness :
    ((log_samples { lastAckRecvNs := none } 1000
        [testContext "buy" 2000 5000, testContext "cancel" 7000 9000]).getD 0
        defaultRoundtripSample).ackDeltaPrevUs = none
    ∧ ((log_samples { lastAckRecvNs := none } 1000
        [testContext "buy" 2000 5000, testContext "cancel" 7000 9000]).getD 1
        defaultRoundtripSample).ackDeltaPrevUs
        = some (roundDiv1000
            (((log_samples { lastAckRecvNs := none } 1000
                [testContext "buy" 2000 5000, testContext "cancel" 7000 9000]).getD 1
                defaultRoundtripSample).recvTsMonoNs
              - ((log_samples { lastAckRecvNs := none } 1000
                  [testContext "buy" 2000 5000, testContext "cancel" 7000 9000]).getD 0
                  defaultRoundtripSample).recvTsMonoNs)) := by
  have main := ack_delta_links_consecutive_samples 1000
    [testContext "buy" 2000 5000, testContext "cancel" 7000 9000]
  exact ⟨main.1 (List.cons_ne_nil _ _), (main.2 0 (by decide)).1⟩

/-- C10: with an empty client id or client secret, `authenticate` errors
immediately without issuing any RPC call over the transport, `connect`
propagates that error, and `Config::load_from_file`'s credential check
independently rejects the empty credentials before any connection attempt. -/
theorem empty_credentials_fail_before_any_rpc (cid secret : String) (resp : RpcResponse)
    (hempty : (cid.isEmpty || secret.isEmpty) = true) :
    (authenticate cid secret resp).1
        = .error "CLIENT_ID / CLIENT_SECRET are empty, cannot authenticate"
    ∧ (authenticate cid secret resp).2 = []
    ∧ connectAuthPhase cid secret resp
        = .error "authentication failed: CLIENT_ID / CLIENT_SECRET are empty, cannot authenticate"
    ∧ configCredentialsCheck cid secret = .error "Deribit credentials must not be empty" := by
  refine ⟨?_, ?_, ?_, ?_⟩ <;>
    simp [authenticate, connectAuthPhase, configCredentialsCheck, hempty]

/-- Witness for C10 with an empty client id and a non-empty secret. -/
theorem empty_credentials_fail_before_any_rpc_witness :
    (authenticate "" "secret-x" (testResponse 0)).1
        = .error "CLIENT_ID / CLIENT_SECRET are empty, cannot authenticate"
    ∧ (authenticate "" "secret-x" (testResponse 0)).2 = []
    ∧ connectAuthPhase "" "secret-x" (testResponse 0)
        = .error "authentication failed: CLIENT_ID / CLIENT_SECRET are empty, cannot authenticate"
    ∧ configCredentialsCheck "" "secret-x" = .error "Deribit credentials must not be empty" :=
  empty_credentials_fail_before_any_rpc "" "secret-x" (testResponse 0) (by decide)
